import Mathlib

/-!
Shallow embedding of the Coyolia web backend (Express + Mongoose).

The repository exposes CRUD handlers for blogs and counseling appointments
plus a JWT auth middleware.  Handlers from
`src/controllers/appointmentController.js` (appointment and blog sections),
the auth middleware `src/middleware/auth.js`, and the Mongoose schemas
`src/models/Appointment.js` / `src/models/Blog.js` are translated below into
pure Lean functions over explicit store states.  The MongoDB layer is modelled
as a list of documents; the compound unique index declared on
`(counselor, date, time)` in `AppointmentSchema` is enforced at the modelled
store level, as MongoDB enforces it atomically on every insert/update.
External collaborators (Cloudinary upload/destroy, JWT verification) are
passed in as oracle parameters; calls made to them are recorded in the
operation's outcome so that ordering/at-all properties can be stated.
-/

/-- Decoded JWT payload attached to `req.user` by the auth middleware:
`{ id, role }`. -/
structure Identity where
  id : String
  role : String
deriving DecidableEq

/-- Errors from `utils/errorResponse.js`: an error carrying a message and an HTTP
status code, produced by handlers via `next(new ErrorResponse(msg, code))`. -/
structure ErrorResponse where
  message : String
  statusCode : Nat
deriving DecidableEq

/-! ## Auth middleware (`src/middleware/auth.js`) -/

/-- JavaScript `String.prototype.split(' ')`, on the character list of the
string: splits at every single space, keeping empty fragments. -/
def splitOnSpace : List Char → List (List Char)
  | [] => [[]]
  | c :: rest =>
    match splitOnSpace rest with
    | [] => [[]]
    | g :: gs => if c = ' ' then [] :: g :: gs else (c :: g) :: gs

/-- JavaScript `String.prototype.startsWith`, via the underlying character
lists. -/
def jsStartsWith (s p : String) : Bool :=
  p.data.isPrefixOf s.data

/-- Core of `protect` from `src/middleware/auth.js`, over the header's
character list (a JS string is a sequence of characters).  When the header
starts with `Bearer`, the token is `header.split(' ')[1]`.  A missing or
empty (JS-falsy) token yields 401 without calling `jwt.verify`; otherwise
verification (the `verify` oracle) decides between the decoded identity
and 401. -/
def protectCore (verify : List Char → Option Identity) (authHeader : Option (List Char)) :
    Except ErrorResponse Identity :=
  let token : Option (List Char) :=
    match authHeader with
    | some h =>
      if "Bearer".data.isPrefixOf h then (splitOnSpace h)[1]?
      else none
    | none => none
  match token with
  | none => .error ⟨"Not authorized", 401⟩
  | some t =>
    if t = [] then .error ⟨"Not authorized", 401⟩
    else
      match verify t with
      | some ident => .ok ident
      | none => .error ⟨"Not authorized", 401⟩

/-- The middleware `protect`, with string-typed header and token. -/
def protect (verify : String → Option Identity) (authHeader : Option String) :
    Except ErrorResponse Identity :=
  protectCore (fun t => verify t.asString) (authHeader.map String.data)

/-- A list of characters containing no space splits into a single fragment. -/
theorem splitOnSpace_of_no_space (l : List Char) (h : ' ' ∉ l) :
    splitOnSpace l = [l] := by
  induction l with
  | nil => rfl
  | cons c rest ih =>
    have hc : c ≠ ' ' := fun hc => h (hc ▸ List.mem_cons_self c rest)
    have hrest : ' ' ∉ rest := fun hm => h (List.mem_cons_of_mem c hm)
    simp [splitOnSpace, ih hrest, hc]

/-- Claim C10. For every request whose `Authorization` header starts with
`Bearer` but has no space-separated second part (the header is exactly
`Bearer`, or `Bearer<token>` with no space anywhere), `protect` fails with
401 `Not authorized` — for every possible verifier, i.e. without token
verification being consulted. -/
theorem protect_bearer_without_token_401
    (verify : String → Option Identity) (rest : List Char)
    (hnospace : ' ' ∉ rest) :
    protect verify (some ("Bearer".data ++ rest).asString) =
      .error ⟨"Not authorized", 401⟩ := by
  show protectCore _ (some ("Bearer".data ++ rest)) = _
  have hsplit : splitOnSpace ("Bearer".data ++ rest) = ["Bearer".data ++ rest] := by
    apply splitOnSpace_of_no_space
    intro hmem
    rcases List.mem_append.mp hmem with hb | hr
    · simp [String.data] at hb
    · exact hnospace hr
  have hpre : "Bearer".data.isPrefixOf ("Bearer".data ++ rest) = true := by
    simp [List.isPrefixOf_iff_prefix]
  simp only [protectCore, hpre, hsplit, if_true]
  rfl

/-- Witness for C10 at the concrete headers `Bearer` and `Bearerabc`. -/
theorem protect_bearer_without_token_401_witness :
    protect (fun _ => some ⟨"u1", "admin"⟩) (some ("Bearer".data ++ []).asString) =
      .error ⟨"Not authorized", 401⟩ ∧
    protect (fun _ => some ⟨"u1", "admin"⟩)
        (some ("Bearer".data ++ ['a', 'b', 'c']).asString) =
      .error ⟨"Not authorized", 401⟩ :=
  ⟨protect_bearer_without_token_401 _ [] (by decide),
   protect_bearer_without_token_401 _ ['a', 'b', 'c'] (by decide)⟩

/-! ## Appointment model (`src/models/Appointment.js`) -/

/-- An `Appointment` document.  `user`/`counselor` are ObjectId references,
kept opaque as strings; `date` is kept opaque as its string form. -/
structure Appointment where
  id : Nat
  user : String
  counselor : String
  type : String
  date : String
  time : String
  status : String
  notes : Option String
deriving DecidableEq

/-- Enum of `AppointmentSchema.type`. -/
def apptTypes : List String := ["15min", "1hour"]

/-- Enum of `AppointmentSchema.status`. -/
def apptStatuses : List String := ["pending", "confirmed", "completed", "cancelled"]

/-- Request body of `POST /api/appointments`.  `counselor`, `type`, `date`,
`time` are the caller-supplied slot data; `user` may be caller-supplied but
is overwritten by the handler; `status` and `notes` are optional. -/
structure ApptBody where
  user : Option String
  counselor : String
  type : String
  date : String
  time : String
  status : Option String
  notes : Option String
deriving DecidableEq

/-- The Appointment collection plus the id counter the store uses to assign
fresh `_id`s. -/
structure ApptStore where
  appointments : List Appointment
  nextId : Nat
deriving DecidableEq

def emptyApptStore : ApptStore := ⟨[], 0⟩

/-- The predicate of the `findOne` pre-check and of the compound unique
index `{ counselor: 1, date: 1, time: 1 }`. -/
def sameSlot (a : Appointment) (c d t : String) : Bool :=
  a.counselor == c && a.date == d && a.time == t

/-- Query `Appointment.findOne({ counselor, date, time })`. -/
def findExisting (s : ApptStore) (b : ApptBody) : Option Appointment :=
  s.appointments.find? (fun a => sameSlot a b.counselor b.date b.time)

/-- Whether a document occupying the given slot exists (what the unique
index checks on insert). -/
def slotTaken (l : List Appointment) (c d t : String) : Bool :=
  (l.find? (fun a => sameSlot a c d t)).isSome

/-- Document built by `Appointment.create(req.body)`: schema defaults applied
(`status` defaults to `'pending'`), `_id` assigned by the store. -/
def mkAppointment (s : ApptStore) (b : ApptBody) (uid : String) : Appointment :=
  { id := s.nextId
    user := uid
    counselor := b.counselor
    type := b.type
    date := b.date
    time := b.time
    status := b.status.getD "pending"
    notes := b.notes }

/-- Mongoose schema validation of an Appointment document: required string
paths non-empty, `type` and `status` in their enums, `notes` at most 500
characters. -/
def validAppointment (a : Appointment) : Bool :=
  a.user != "" && a.counselor != "" && apptTypes.contains a.type &&
  a.date != "" && a.time != "" && apptStatuses.contains a.status &&
  (match a.notes with | some n => decide (n.length ≤ 500) | none => true)

/-- Validity of a create request, phrased on the raw body and identity. -/
def bodyValid (ident : Identity) (b : ApptBody) : Bool :=
  ident.id != "" && b.counselor != "" && apptTypes.contains b.type &&
  b.date != "" && b.time != "" && apptStatuses.contains (b.status.getD "pending") &&
  (match b.notes with | some n => decide (n.length ≤ 500) | none => true)

/-- The 400 error `createAppointment` raises when its `findOne` pre-check
finds an appointment in the requested slot. -/
def bookedConflictErr (b : ApptBody) : ErrorResponse :=
  ⟨"There is already an appointment booked at " ++ b.time ++ " on " ++ b.date, 400⟩

/-- Modelled from the spec: the central error middleware
(`src/middleware/error.js`, referenced by `server.js` but not present under
`src/`) converts the MongoDB duplicate-key error raised by the unique index
`{ counselor: 1, date: 1, time: 1 }` into the uniform error envelope; the
spec classifies it as `Conflict` (400/409, uniqueness violation). -/
def duplicateKeyErr : ErrorResponse := ⟨"Duplicate field value entered", 400⟩

/-- Modelled from the spec: a Mongoose `ValidationError` thrown by
`Appointment.create`/`findByIdAndUpdate` propagates through `asyncHandler`
to the central error middleware (not present under `src/`); the spec
classifies it as `ValidationError` (400, malformed/missing input). -/
def mongooseValidationErr : ErrorResponse := ⟨"Validation failed", 400⟩

/-- Handler `createAppointment` (`src/controllers/appointmentController.js` 47-86):
sets `req.body.user = req.user.id`, pre-checks the slot with `findOne` (400
on hit), then `Appointment.create` (schema validation, then insert guarded
by the unique index).  The confirmation email is fire-and-forget and does
not influence the result or store, so it is not modelled. -/
def createAppointment (ident : Identity) (body : ApptBody) (s : ApptStore) :
    Except ErrorResponse Appointment × ApptStore :=
  let body' : ApptBody := { body with user := some ident.id }
  match findExisting s body' with
  | some _ => (.error (bookedConflictErr body'), s)
  | none =>
    let a : Appointment := mkAppointment s body' (body'.user.getD "")
    if validAppointment a then
      if slotTaken s.appointments a.counselor a.date a.time then
        (.error duplicateKeyErr, s)
      else (.ok a, ⟨s.appointments ++ [a], s.nextId + 1⟩)
    else (.error mongooseValidationErr, s)

/-- Body of `PUT /api/appointments/:id`: any subset of fields may be sent. -/
structure ApptUpdateBody where
  user : Option String
  counselor : Option String
  type : Option String
  date : Option String
  time : Option String
  status : Option String
  notes : Option String
deriving DecidableEq

/-- Field-wise application of a partial update (`findByIdAndUpdate` with
`$set` of the supplied paths); `_id` is immutable. -/
def applyApptUpdate (a : Appointment) (b : ApptUpdateBody) : Appointment :=
  { a with
    user := b.user.getD a.user
    counselor := b.counselor.getD a.counselor
    type := b.type.getD a.type
    date := b.date.getD a.date
    time := b.time.getD a.time
    status := b.status.getD a.status
    notes := match b.notes with | some n => some n | none => a.notes }

/-- Query `Appointment.findById`. -/
def findById (l : List Appointment) (i : Nat) : Option Appointment :=
  l.find? (fun a => a.id == i)

/-- Handler `updateAppointment` (controller lines 91-119): 404 when missing, 401
when the caller is neither the appointment's `user` nor an admin, else
`findByIdAndUpdate` with `runValidators` — the updated document must pass
schema validation (on reachable stores every stored document is valid, so
validating the whole document coincides with Mongoose's validation of the
updated paths) and the unique slot index must not be violated by another
document. -/
def updateAppointment (ident : Identity) (i : Nat) (b : ApptUpdateBody) (s : ApptStore) :
    Except ErrorResponse Appointment × ApptStore :=
  match findById s.appointments i with
  | none => (.error ⟨"Appointment not found with id of " ++ toString i, 404⟩, s)
  | some appt =>
    if appt.user ≠ ident.id ∧ ident.role ≠ "admin" then
      (.error ⟨"User " ++ ident.id ++ " is not authorized to update this appointment", 401⟩, s)
    else
      let updated := applyApptUpdate appt b
      if validAppointment updated then
        if s.appointments.any (fun a => a.id != appt.id && sameSlot a updated.counselor updated.date updated.time) then
          (.error duplicateKeyErr, s)
        else
          (.ok updated, ⟨s.appointments.map (fun a => if a.id = i then updated else a), s.nextId⟩)
      else (.error mongooseValidationErr, s)

/-- Handler `deleteAppointment` (controller lines 124-149): 404 when missing, 401
when the caller is neither owner nor admin, else `appointment.remove()` and
`{ success: true, data: {} }`. -/
def deleteAppointment (ident : Identity) (i : Nat) (s : ApptStore) :
    Except ErrorResponse Unit × ApptStore :=
  match findById s.appointments i with
  | none => (.error ⟨"Appointment not found with id of " ++ toString i, 404⟩, s)
  | some appt =>
    if appt.user ≠ ident.id ∧ ident.role ≠ "admin" then
      (.error ⟨"User " ++ ident.id ++ " is not authorized to delete this appointment", 401⟩, s)
    else
      (.ok (), ⟨s.appointments.filter (fun a => a.id != i), s.nextId⟩)

/-- An appointment mutation, for sequencing. -/
inductive ApptOp where
  | create (ident : Identity) (body : ApptBody)
  | update (ident : Identity) (i : Nat) (body : ApptUpdateBody)
  | delete (ident : Identity) (i : Nat)

/-- Store left behind by one operation (errors leave it unchanged). -/
def applyApptOp (s : ApptStore) : ApptOp → ApptStore
  | .create ident b => (createAppointment ident b s).2
  | .update ident i b => (updateAppointment ident i b s).2
  | .delete ident i => (deleteAppointment ident i s).2

/-- Run a sequence of appointment operations. -/
def runApptOps (s : ApptStore) (ops : List ApptOp) : ApptStore :=
  ops.foldl applyApptOp s

/-- The `(counselor, date, time)` triple of a document. -/
def slotKey (a : Appointment) : String × String × String :=
  (a.counselor, a.date, a.time)

/-- The slot-uniqueness invariant of the spec: no two stored appointments
occupy the same `(counselor, date, time)` triple. -/
def SlotUnique (l : List Appointment) : Prop :=
  l.Pairwise (fun a b => slotKey a ≠ slotKey b)

/-- Full store invariant: distinct `_id`s, distinct slots, ids below the
fresh-id counter. -/
def ApptInv (s : ApptStore) : Prop :=
  s.appointments.Pairwise (fun a b => a.id ≠ b.id ∧ slotKey a ≠ slotKey b) ∧
  ∀ a ∈ s.appointments, a.id < s.nextId

/-! ## Blog model (`src/models/Blog.js`) -/

/-- The `{ public_id, url }` pair pointing at the external (Cloudinary)
asset. -/
structure BlogImage where
  public_id : String
  url : String
deriving DecidableEq

/-- A `Blog` document. -/
structure Blog where
  id : Nat
  title : String
  slug : Option String
  content : String
  excerpt : Option String
  image : Option BlogImage
  author : String
  tags : List String
  isPublished : Bool
deriving DecidableEq

/-- The Blog collection plus the fresh-id counter. -/
structure BlogStore where
  blogs : List Blog
  nextId : Nat
deriving DecidableEq

/-- JavaScript `String.prototype.trim` (the `trim: true` setter on
`BlogSchema.title`), via the character list. -/
def jsTrim (s : String) : String :=
  ⟨((s.data.dropWhile Char.isWhitespace).reverse.dropWhile Char.isWhitespace).reverse⟩

/-- Mongoose schema validation of a Blog document: `title` (stored trimmed)
required and at most 100 characters, `content` required, `excerpt` at most
200 characters, `author` required, `tags` required (a non-empty list, per
the spec's data model). -/
def validBlog (b : Blog) : Bool :=
  b.title != "" && decide (b.title.length ≤ 100) &&
  b.content != "" &&
  (match b.excerpt with | some e => decide (e.length ≤ 200) | none => true) &&
  b.author != "" &&
  b.tags != []

/-- Body of `POST /api/blogs`; every field is caller-optional at the HTTP
level. -/
structure BlogBody where
  title : Option String
  slug : Option String
  content : Option String
  excerpt : Option String
  image : Option BlogImage
  author : Option String
  tags : Option (List String)
  isPublished : Option Bool
deriving DecidableEq

/-- Helper `validateRequiredFields(req.body, ['title', 'content'])` from the blog
controller: a field is missing when JS-falsy (absent or empty string). -/
def requiredMissing (b : BlogBody) : List String :=
  (if b.title.getD "" = "" then ["title"] else []) ++
  (if b.content.getD "" = "" then ["content"] else [])

/-- Document built by `Blog.create(req.body)` with the author already set by
the handler: schema defaults applied (`isPublished` false, `tags` `[]`),
`title` stored trimmed, `_id` assigned by the store. -/
def mkBlog (s : BlogStore) (b : BlogBody) (author : String) : Blog :=
  { id := s.nextId
    title := jsTrim (b.title.getD "")
    slug := b.slug
    content := b.content.getD ""
    excerpt := b.excerpt
    image := b.image
    author := author
    tags := b.tags.getD []
    isPublished := b.isPublished.getD false }

/-- Handler `createBlog` (blog controller): required-field check (400 listing the
missing fields), `req.body.author = req.user?.id || 'admin'`, then
`Blog.create` — whose `ValidationError` is caught by the handler's own
`try/catch` and surfaced as 500 `Failed to create blog`. -/
def createBlog (ident : Identity) (b : BlogBody) (s : BlogStore) :
    Except ErrorResponse Blog × BlogStore :=
  match requiredMissing b with
  | [] =>
    let author := if ident.id ≠ "" then ident.id else "admin"
    let blog := mkBlog s b author
    if validBlog blog then (.ok blog, ⟨s.blogs ++ [blog], s.nextId + 1⟩)
    else (.error ⟨"Failed to create blog", 500⟩, s)
  | missing =>
    (.error ⟨"The following fields are required: " ++ String.intercalate ", " missing, 400⟩, s)

/-- Body of `PUT /api/blogs/:id`. -/
structure BlogUpdateBody where
  title : Option String
  slug : Option String
  content : Option String
  excerpt : Option String
  image : Option BlogImage
  author : Option String
  tags : Option (List String)
  isPublished : Option Bool
deriving DecidableEq

/-- Field-wise application of a partial blog update; `_id` immutable,
`title` trimmed by the schema setter. -/
def applyBlogUpdate (bl : Blog) (b : BlogUpdateBody) : Blog :=
  { bl with
    title := match b.title with | some t => jsTrim t | none => bl.title
    slug := match b.slug with | some v => some v | none => bl.slug
    content := b.content.getD bl.content
    excerpt := match b.excerpt with | some v => some v | none => bl.excerpt
    image := match b.image with | some v => some v | none => bl.image
    author := b.author.getD bl.author
    tags := b.tags.getD bl.tags
    isPublished := b.isPublished.getD bl.isPublished }

/-- Query `Blog.findById`. -/
def findBlogById (l : List Blog) (i : Nat) : Option Blog :=
  l.find? (fun bl => bl.id == i)

/-- Handler `updateBlog` (blog controller): 404 when missing, 403 when the caller is
neither the blog's author nor an admin, else `findByIdAndUpdate` with
`runValidators` — a Mongoose `ValidationError` is caught by the handler's
`try/catch` and surfaced as 500 `Failed to update blog`.  (On reachable
stores every stored document is valid, so validating the whole updated
document coincides with Mongoose's validation of the updated paths.) -/
def updateBlog (ident : Identity) (i : Nat) (b : BlogUpdateBody) (s : BlogStore) :
    Except ErrorResponse Blog × BlogStore :=
  match findBlogById s.blogs i with
  | none => (.error ⟨"Blog not found with id of " ++ toString i, 404⟩, s)
  | some bl =>
    if bl.author ≠ ident.id ∧ ident.role ≠ "admin" then
      (.error ⟨"Not authorized to update this blog", 403⟩, s)
    else
      let updated := applyBlogUpdate bl b
      if validBlog updated then
        (.ok updated, ⟨s.blogs.map (fun x => if x.id = i then updated else x), s.nextId⟩)
      else (.error ⟨"Failed to update blog", 500⟩, s)

/-- Outcome of `deleteBlog`: the handler result, the store left behind, and
the `public_id`s for which `cloudinary.uploader.destroy` was called. -/
structure DeleteBlogOutcome where
  result : Except ErrorResponse Unit
  store : BlogStore
  destroyCalls : List String

/-- Handler `deleteBlog` (blog controller): 404 when missing, 403 when the caller is
neither author nor admin; when the blog has an image,
`cloudinary.uploader.destroy` is called inside its own `try/catch` — a
failure (`destroySucceeds = false`) is logged and swallowed — and
`blog.deleteOne()` removes the record regardless. -/
def deleteBlog (ident : Identity) (i : Nat) (destroySucceeds : Bool) (s : BlogStore) :
    DeleteBlogOutcome :=
  match findBlogById s.blogs i with
  | none => ⟨.error ⟨"Blog not found with id of " ++ toString i, 404⟩, s, []⟩
  | some bl =>
    if bl.author ≠ ident.id ∧ ident.role ≠ "admin" then
      ⟨.error ⟨"Not authorized to delete this blog", 403⟩, s, []⟩
    else
      let calls := match bl.image with
        | some img => [img.public_id]
        | none => []
      ⟨.ok (), ⟨s.blogs.filter (fun x => x.id != i), s.nextId⟩, calls⟩

/-- A multipart upload as express-fileupload presents it (`req.files.file`). -/
structure UploadedFile where
  mimetype : String
  size : Nat
  tempFilePath : String
deriving DecidableEq

/-- Outcome of `uploadBlogImage`: the handler result, the store left behind,
whether `cloudinary.uploader.upload` was called, and the `public_id`s for
which `cloudinary.uploader.destroy` was called. -/
structure UploadImageOutcome where
  result : Except ErrorResponse Blog
  store : BlogStore
  uploadCalled : Bool
  destroyCalls : List String

/-- Handler `uploadBlogImage` (blog controller): 404 when missing, 403 when the
caller is neither author nor admin, 400 when no file / non-image MIME /
size over `MAX_FILE_UPLOAD` (default 5000000).  Only then is
`cloudinary.uploader.upload` called (`uploadResult` oracle); an upload
failure is caught by the handler's `try/catch` as 500 `Failed to upload
image` with nothing destroyed.  On upload success the old asset (if any)
is destroyed best-effort (failure swallowed), and the record's image pair
is replaced and saved. -/
def uploadBlogImage (ident : Identity) (i : Nat) (file : Option UploadedFile)
    (maxFileUpload : Option Nat) (uploadResult : Except String BlogImage)
    (destroySucceeds : Bool) (s : BlogStore) : UploadImageOutcome :=
  match findBlogById s.blogs i with
  | none => ⟨.error ⟨"Blog not found with id of " ++ toString i, 404⟩, s, false, []⟩
  | some bl =>
    if bl.author ≠ ident.id ∧ ident.role ≠ "admin" then
      ⟨.error ⟨"Not authorized to update this blog", 403⟩, s, false, []⟩
    else
      match file with
      | none => ⟨.error ⟨"Please upload an image file", 400⟩, s, false, []⟩
      | some f =>
        let maxSize := maxFileUpload.getD 5000000
        if ¬(jsStartsWith f.mimetype "image") then
          ⟨.error ⟨"Please upload an image file (JPEG, PNG, etc.)", 400⟩, s, false, []⟩
        else if f.size > maxSize then
          ⟨.error ⟨"Image size must be less than " ++ toString (maxSize / 1000000) ++ "MB", 400⟩, s, false, []⟩
        else
          match uploadResult with
          | .error _ => ⟨.error ⟨"Failed to upload image", 500⟩, s, true, []⟩
          | .ok img =>
            let calls := match bl.image with
              | some old => [old.public_id]
              | none => []
            let updated := { bl with image := some img }
            ⟨.ok updated, ⟨s.blogs.map (fun x => if x.id = i then updated else x), s.nextId⟩, true, calls⟩

/-! ## Two concurrent create-appointment requests (C2)

Each request performs two atomic steps against the shared store: the
`findOne` pre-check (a read), then — when the pre-check saw a free slot —
schema validation and the insert, which MongoDB performs atomically under
the unique index.  Requests whose pre-check saw the slot taken finish with
the handler's 400; an insert losing the race finishes with the store's
duplicate-key error. -/

/-- Progress of one in-flight `createAppointment` request. -/
inductive ReqPhase where
  | start
  | checked (found : Bool)
  | done (result : Except ErrorResponse Appointment)

/-- One atomic step of an in-flight create request against the store.  The
pre-check reads the slot of the request's body (the handler's `findOne`
after `req.body.user = req.user.id`; the user override leaves the slot
triple unchanged), and the second step mirrors `Appointment.create`:
validation, then the unique-index-guarded insert. -/
def stepCreate (ident : Identity) (body : ApptBody) (s : ApptStore) :
    ReqPhase → ApptStore × ReqPhase
  | .start =>
    (s, .checked (slotTaken s.appointments body.counselor body.date body.time))
  | .checked found =>
    if found then
      (s, .done (.error (bookedConflictErr body)))
    else
      let a : Appointment := mkAppointment s { body with user := some ident.id } ident.id
      if validAppointment a then
        if slotTaken s.appointments body.counselor body.date body.time then
          (s, .done (.error duplicateKeyErr))
        else (⟨s.appointments ++ [a], s.nextId + 1⟩, .done (.ok a))
      else (s, .done (.error mongooseValidationErr))
  | .done r => (s, .done r)

/-- Shared store plus the two requests' phases. -/
structure TwoReqState where
  store : ApptStore
  p1 : ReqPhase
  p2 : ReqPhase

/-- Execute a schedule: `true` steps request 1, `false` steps request 2. -/
def runSchedule (i1 : Identity) (b1 : ApptBody) (i2 : Identity) (b2 : ApptBody) :
    List Bool → TwoReqState → TwoReqState
  | [], st => st
  | c :: rest, st =>
    if c then
      let (s', p') := stepCreate i1 b1 st.store st.p1
      runSchedule i1 b1 i2 b2 rest ⟨s', p', st.p2⟩
    else
      let (s', p') := stepCreate i2 b2 st.store st.p2
      runSchedule i1 b1 i2 b2 rest ⟨s', st.p1, p'⟩

/-- The six interleavings of two two-step requests. -/
def interleavings2 : List (List Bool) :=
  [[true, true, false, false], [true, false, true, false], [true, false, false, true],
   [false, true, true, false], [false, true, false, true], [false, false, true, true]]

/-- A request that finished with a created appointment. -/
def isSuccess : ReqPhase → Bool
  | .done (.ok _) => true
  | _ => false

/-- A request that finished with a slot-conflict failure: either the
handler's pre-check 400 or the store's duplicate-key error. -/
def isConflictFailure (b : ApptBody) : ReqPhase → Bool
  | .done (.error e) => e == bookedConflictErr b || e == duplicateKeyErr
  | _ => false

/-! ## Basic lemmas -/

theorem sameSlot_eq_true_iff (a : Appointment) (c d t : String) :
    sameSlot a c d t = true ↔ slotKey a = (c, d, t) := by
  simp [sameSlot, slotKey, Prod.ext_iff, and_assoc]

theorem slotTaken_eq_false_iff (l : List Appointment) (c d t : String) :
    slotTaken l c d t = false ↔ ∀ a ∈ l, slotKey a ≠ (c, d, t) := by
  constructor
  · intro h a ha hk
    cases hf : l.find? (fun x => sameSlot x c d t) with
    | none =>
      exact List.find?_eq_none.mp hf a ha ((sameSlot_eq_true_iff a c d t).mpr hk)
    | some x =>
      rw [slotTaken, hf] at h
      simp at h
  · intro h
    rw [slotTaken]
    cases hf : l.find? (fun x => sameSlot x c d t) with
    | none => rfl
    | some x =>
      exact absurd ((sameSlot_eq_true_iff x c d t).mp
          (List.find?_some (p := fun y => sameSlot y c d t) hf))
        (h x (List.mem_of_find?_eq_some hf))

/-! ## Sample data for concrete witnesses -/

def sampleAppt : Appointment :=
  ⟨0, "u1", "c1", "15min", "2025-01-01", "10:00", "pending", none⟩

def sampleApptStore : ApptStore := ⟨[sampleAppt], 1⟩

def sampleBlog : Blog :=
  ⟨0, "Title", none, "Content", none, some ⟨"pid1", "http://img"⟩, "u1", ["tag"], false⟩

def sampleBlogStore : BlogStore := ⟨[sampleBlog], 1⟩

def intruder : Identity := ⟨"u2", "user"⟩

def owner : Identity := ⟨"u1", "user"⟩

def emptyApptUpdate : ApptUpdateBody := ⟨none, none, none, none, none, none, none⟩

/-- Claim C3. For every appointment or blog mutation (update, delete) invoked
by an authenticated caller who is neither the record's owner (`user` /
`author`) nor an admin, the operation fails (401 for appointments, 403 for
blogs — both in the spec's Forbidden/Unauthenticated family) and the
targeted record — indeed the whole store — remains unchanged. -/
theorem mutation_by_non_owner_non_admin_rejected :
    (∀ (ident : Identity) (i : Nat) (b : ApptUpdateBody) (s : ApptStore) (appt : Appointment),
      findById s.appointments i = some appt →
      appt.user ≠ ident.id → ident.role ≠ "admin" →
      updateAppointment ident i b s =
        (.error ⟨"User " ++ ident.id ++ " is not authorized to update this appointment", 401⟩, s)) ∧
    (∀ (ident : Identity) (i : Nat) (s : ApptStore) (appt : Appointment),
      findById s.appointments i = some appt →
      appt.user ≠ ident.id → ident.role ≠ "admin" →
      deleteAppointment ident i s =
        (.error ⟨"User " ++ ident.id ++ " is not authorized to delete this appointment", 401⟩, s)) ∧
    (∀ (ident : Identity) (i : Nat) (b : BlogUpdateBody) (s : BlogStore) (bl : Blog),
      findBlogById s.blogs i = some bl →
      bl.author ≠ ident.id → ident.role ≠ "admin" →
      updateBlog ident i b s = (.error ⟨"Not authorized to update this blog", 403⟩, s)) ∧
    (∀ (ident : Identity) (i : Nat) (destroySucceeds : Bool) (s : BlogStore) (bl : Blog),
      findBlogById s.blogs i = some bl →
      bl.author ≠ ident.id → ident.role ≠ "admin" →
      deleteBlog ident i destroySucceeds s =
        ⟨.error ⟨"Not authorized to delete this blog", 403⟩, s, []⟩) := by
  refine ⟨?_, ?_, ?_, ?_⟩
  · intro ident i b s appt hfind h1 h2
    simp only [updateAppointment, hfind]
    rw [if_pos ⟨h1, h2⟩]
  · intro ident i s appt hfind h1 h2
    simp only [deleteAppointment, hfind]
    rw [if_pos ⟨h1, h2⟩]
  · intro ident i b s bl hfind h1 h2
    simp only [updateBlog, hfind]
    rw [if_pos ⟨h1, h2⟩]
  · intro ident i destroySucceeds s bl hfind h1 h2
    simp only [deleteBlog, hfind]
    rw [if_pos ⟨h1, h2⟩]

/-- Witness for C3: the non-owner non-admin `u2` is rejected on all four
mutations against the sample stores, which stay unchanged. -/
theorem mutation_by_non_owner_non_admin_rejected_witness :
    updateAppointment intruder 0 emptyApptUpdate sampleApptStore =
      (.error ⟨"User " ++ intruder.id ++ " is not authorized to update this appointment", 401⟩,
        sampleApptStore) ∧
    deleteAppointment intruder 0 sampleApptStore =
      (.error ⟨"User " ++ intruder.id ++ " is not authorized to delete this appointment", 401⟩,
        sampleApptStore) ∧
    updateBlog intruder 0 ⟨none, none, none, none, none, none, none, none⟩ sampleBlogStore =
      (.error ⟨"Not authorized to update this blog", 403⟩, sampleBlogStore) ∧
    deleteBlog intruder 0 false sampleBlogStore =
      ⟨.error ⟨"Not authorized to delete this blog", 403⟩, sampleBlogStore, []⟩ :=
  ⟨mutation_by_non_owner_non_admin_rejected.1 intruder 0 emptyApptUpdate sampleApptStore
      sampleAppt (by decide) (by decide) (by decide),
   mutation_by_non_owner_non_admin_rejected.2.1 intruder 0 sampleApptStore
      sampleAppt (by decide) (by decide) (by decide),
   mutation_by_non_owner_non_admin_rejected.2.2.1 intruder 0 _ sampleBlogStore
      sampleBlog (by decide) (by decide) (by decide),
   mutation_by_non_owner_non_admin_rejected.2.2.2 intruder 0 false sampleBlogStore
      sampleBlog (by decide) (by decide) (by decide)⟩

/-- Claim C4. For every existing blog, delete by an authorized caller (author
or admin) returns success and removes the record from the store, for both
outcomes of the external asset deletion — in particular when the blog has
an attached image and the Cloudinary destroy fails. -/
theorem deleteBlog_removes_record_despite_destroy_failure :
    ∀ (ident : Identity) (i : Nat) (destroySucceeds : Bool) (s : BlogStore) (bl : Blog),
      findBlogById s.blogs i = some bl →
      (bl.author = ident.id ∨ ident.role = "admin") →
      (deleteBlog ident i destroySucceeds s).result = .ok () ∧
      (∀ x ∈ (deleteBlog ident i destroySucceeds s).store.blogs, x.id ≠ i) := by
  intro ident i destroySucceeds s bl hfind hauth
  have hcond : ¬(bl.author ≠ ident.id ∧ ident.role ≠ "admin") := by
    rcases hauth with h | h <;> simp [h]
  simp only [deleteBlog, hfind]
  rw [if_neg hcond]
  refine ⟨rfl, ?_⟩
  intro x hx
  simp only [List.mem_filter] at hx
  simpa using hx.2

/-- Witness for C4: the author deletes the sample blog (which has an
attached image) while the external destroy fails; the call succeeds and the
record is gone. -/
theorem deleteBlog_removes_record_despite_destroy_failure_witness :
    (deleteBlog owner 0 false sampleBlogStore).result = .ok () ∧
    (∀ x ∈ (deleteBlog owner 0 false sampleBlogStore).store.blogs, x.id ≠ 0) :=
  deleteBlog_removes_record_despite_destroy_failure owner 0 false sampleBlogStore
    sampleBlog (by decide) (by decide)

/-- Claim C6. For every blog image upload whose file size exceeds the
configured maximum, the handler fails with the 400 size error, the upload
to the external image store is never attempted, no destroy is issued, and
the store (hence the blog's image field) is unchanged. -/
theorem uploadBlogImage_oversize_rejected_no_upload :
    ∀ (ident : Identity) (i : Nat) (f : UploadedFile) (maxFileUpload : Option Nat)
      (uploadResult : Except String BlogImage) (destroySucceeds : Bool)
      (s : BlogStore) (bl : Blog),
      findBlogById s.blogs i = some bl →
      (bl.author = ident.id ∨ ident.role = "admin") →
      jsStartsWith f.mimetype "image" = true →
      f.size > maxFileUpload.getD 5000000 →
      uploadBlogImage ident i (some f) maxFileUpload uploadResult destroySucceeds s =
        ⟨.error ⟨"Image size must be less than " ++
            toString (maxFileUpload.getD 5000000 / 1000000) ++ "MB", 400⟩, s, false, []⟩ := by
  intro ident i f maxFileUpload uploadResult destroySucceeds s bl hfind hauth hmime hsize
  have hcond : ¬(bl.author ≠ ident.id ∧ ident.role ≠ "admin") := by
    rcases hauth with h | h <;> simp [h]
  simp only [uploadBlogImage, hfind]
  rw [if_neg hcond, if_neg (by simp [hmime]), if_pos hsize]

/-- Witness for C6: a 6MB image against the configured 5MB limit is
rejected with the 400 size message, no external call made. -/
theorem uploadBlogImage_oversize_rejected_no_upload_witness :
    uploadBlogImage owner 0 (some ⟨"image/png", 6000000, "/tmp/f"⟩) (some 5000000)
        (.ok ⟨"p2", "u2"⟩) true sampleBlogStore =
      ⟨.error ⟨"Image size must be less than " ++
          toString ((some 5000000).getD 5000000 / 1000000) ++ "MB", 400⟩,
        sampleBlogStore, false, []⟩ :=
  uploadBlogImage_oversize_rejected_no_upload owner 0 ⟨"image/png", 6000000, "/tmp/f"⟩
    (some 5000000) (.ok ⟨"p2", "u2"⟩) true sampleBlogStore sampleBlog
    (by decide) (by decide) (by decide) (by decide)

/-- Claim C8. For every authenticated create request that succeeds, the created
record's owner reference comes from the authenticated identity — appointment
`user` always, blog `author` whenever the identity id is non-empty (the
handler's `req.user?.id || 'admin'` falls back to `'admin'` only on a
JS-falsy id, which real JWT ids never are) — regardless of any
caller-supplied `user`/`author` value in the body. -/
theorem created_owner_set_from_identity :
    (∀ (ident : Identity) (body : ApptBody) (s : ApptStore) (a : Appointment) (s2 : ApptStore),
      createAppointment ident body s = (.ok a, s2) → a.user = ident.id) ∧
    (∀ (ident : Identity) (b : BlogBody) (s : BlogStore) (bl : Blog) (s2 : BlogStore),
      ident.id ≠ "" → createBlog ident b s = (.ok bl, s2) → bl.author = ident.id) := by
  constructor
  · intro ident body s a s2 h
    simp only [createAppointment] at h
    split at h
    · simp at h
    · split at h
      · split at h
        · simp at h
        · simp only [Prod.mk.injEq, Except.ok.injEq] at h
          obtain ⟨ha, -⟩ := h
          subst ha
          rfl
      · simp at h
  · intro ident b s bl s2 hid h
    simp only [createBlog] at h
    split at h
    · rw [if_pos hid] at h
      split at h
      · simp only [Prod.mk.injEq, Except.ok.injEq] at h
        obtain ⟨hbl, -⟩ := h
        subst hbl
        rfl
      · simp at h
    · simp at h

def bodyNew : ApptBody := ⟨some "evil", "c2", "15min", "2025-01-02", "11:00", none, none⟩

def createdAppt : Appointment :=
  ⟨0, "u1", "c2", "15min", "2025-01-02", "11:00", "pending", none⟩

def blogBodyNew : BlogBody :=
  ⟨some "Hello", none, some "World", none, none, some "evil", some ["t"], none⟩

def sampleNewBlog : Blog := ⟨0, "Hello", none, "World", none, none, "a1", ["t"], false⟩

/-- Witness for C8: successful creates with a caller-supplied `user` /
`author` of `"evil"` in the body still store the authenticated identity. -/
theorem created_owner_set_from_identity_witness :
    createdAppt.user = owner.id ∧ sampleNewBlog.author = "a1" :=
  ⟨created_owner_set_from_identity.1 owner bodyNew emptyApptStore createdAppt
      ⟨[createdAppt], 1⟩ (by rfl),
   created_owner_set_from_identity.2 ⟨"a1", "admin"⟩ blogBodyNew ⟨[], 0⟩ sampleNewBlog
      ⟨[sampleNewBlog], 1⟩ (by decide) (by rfl)⟩

/-- Claim C9. For every appointment created without an explicit `status` field,
the stored appointment's status is `'pending'` (the schema default). -/
theorem createAppointment_default_status_pending :
    ∀ (ident : Identity) (body : ApptBody) (s : ApptStore) (a : Appointment) (s2 : ApptStore),
      body.status = none → createAppointment ident body s = (.ok a, s2) →
      a.status = "pending" := by
  intro ident body s a s2 hst h
  simp only [createAppointment] at h
  split at h
  · simp at h
  · split at h
    · split at h
      · simp at h
      · simp only [Prod.mk.injEq, Except.ok.injEq] at h
        obtain ⟨ha, -⟩ := h
        subst ha
        simp [mkAppointment, hst]
    · simp at h

/-- Witness for C9: `bodyNew` carries no `status`; the stored appointment's
status is `pending`. -/
theorem createAppointment_default_status_pending_witness :
    createdAppt.status = "pending" :=
  createAppointment_default_status_pending owner bodyNew emptyApptStore createdAppt
    ⟨[createdAppt], 1⟩ rfl (by rfl)

/-- Claim C5. For every blog image upload that reaches the external-storage
step: on upload failure the handler fails 500, no destroy is ever issued
and the store is unchanged (the record still points at the old, undeleted
asset); only on upload success is the old asset's `public_id` destroyed,
and the record's image pair is then replaced with the new `{public_id,
url}`. -/
theorem uploadBlogImage_replace_ordering :
    ∀ (ident : Identity) (i : Nat) (f : UploadedFile) (maxFileUpload : Option Nat)
      (uploadResult : Except String BlogImage) (destroySucceeds : Bool)
      (s : BlogStore) (bl : Blog),
      findBlogById s.blogs i = some bl →
      (bl.author = ident.id ∨ ident.role = "admin") →
      jsStartsWith f.mimetype "image" = true →
      f.size ≤ maxFileUpload.getD 5000000 →
      ((∀ e, uploadResult = .error e →
        uploadBlogImage ident i (some f) maxFileUpload uploadResult destroySucceeds s =
          ⟨.error ⟨"Failed to upload image", 500⟩, s, true, []⟩) ∧
       (∀ img, uploadResult = .ok img →
        (uploadBlogImage ident i (some f) maxFileUpload uploadResult destroySucceeds s).destroyCalls =
          (match bl.image with | some old => [old.public_id] | none => []) ∧
        (uploadBlogImage ident i (some f) maxFileUpload uploadResult destroySucceeds s).result =
          .ok { bl with image := some img } ∧
        { bl with image := some img } ∈
          (uploadBlogImage ident i (some f) maxFileUpload uploadResult destroySucceeds s).store.blogs)) := by
  intro ident i f maxFileUpload uploadResult destroySucceeds s bl hfind hauth hmime hsize
  have hcond : ¬(bl.author ≠ ident.id ∧ ident.role ≠ "admin") := by
    rcases hauth with h | h <;> simp [h]
  have hsizeneg : ¬(f.size > maxFileUpload.getD 5000000) := by omega
  constructor
  · intro e he
    subst he
    simp only [uploadBlogImage, hfind]
    rw [if_neg hcond, if_neg (by simp [hmime]), if_neg hsizeneg]
  · intro img hi
    subst hi
    have hfind2 : s.blogs.find? (fun x => x.id == i) = some bl := hfind
    have hbl := List.mem_of_find?_eq_some hfind2
    have hid : bl.id = i := by
      simpa using List.find?_some (p := fun x : Blog => x.id == i) hfind2
    simp only [uploadBlogImage, hfind]
    rw [if_neg hcond, if_neg (by simp [hmime]), if_neg hsizeneg]
    refine ⟨rfl, rfl, ?_⟩
    refine List.mem_map.mpr ⟨bl, hbl, ?_⟩
    simp [hid]

/-- Witness for C5 at the sample blog (old image `pid1`): a failed upload
destroys nothing and changes nothing; a successful upload destroys exactly
`pid1` and stores the new pair. -/
theorem uploadBlogImage_replace_ordering_witness :
    uploadBlogImage owner 0 (some ⟨"image/png", 1000, "/tmp/f"⟩) none (.error "boom")
        true sampleBlogStore =
      ⟨.error ⟨"Failed to upload image", 500⟩, sampleBlogStore, true, []⟩ ∧
    ((uploadBlogImage owner 0 (some ⟨"image/png", 1000, "/tmp/f"⟩) none
        (.ok ⟨"newpid", "newurl"⟩) true sampleBlogStore).destroyCalls =
      (match sampleBlog.image with | some old => [old.public_id] | none => []) ∧
     (uploadBlogImage owner 0 (some ⟨"image/png", 1000, "/tmp/f"⟩) none
        (.ok ⟨"newpid", "newurl"⟩) true sampleBlogStore).result =
      .ok { sampleBlog with image := some ⟨"newpid", "newurl"⟩ } ∧
     { sampleBlog with image := some ⟨"newpid", "newurl"⟩ } ∈
      (uploadBlogImage owner 0 (some ⟨"image/png", 1000, "/tmp/f"⟩) none
        (.ok ⟨"newpid", "newurl"⟩) true sampleBlogStore).store.blogs) :=
  ⟨(uploadBlogImage_replace_ordering owner 0 ⟨"image/png", 1000, "/tmp/f"⟩ none
      (.error "boom") true sampleBlogStore sampleBlog (by decide) (by decide)
      (by decide) (by decide)).1 "boom" rfl,
   (uploadBlogImage_replace_ordering owner 0 ⟨"image/png", 1000, "/tmp/f"⟩ none
      (.ok ⟨"newpid", "newurl"⟩) true sampleBlogStore sampleBlog (by decide) (by decide)
      (by decide) (by decide)).2 ⟨"newpid", "newurl"⟩ rfl⟩

/-! ## Blog title boundary (C7) -/

theorem validBlog_eq_true_iff (bl : Blog) :
    validBlog bl = true ↔
      (bl.title ≠ "" ∧ bl.title.length ≤ 100 ∧ bl.content ≠ "" ∧
       (match bl.excerpt with | some e => e.length ≤ 200 | none => True) ∧
       bl.author ≠ "" ∧ bl.tags ≠ []) := by
  cases hbe : bl.excerpt <;> simp [validBlog, hbe, and_assoc]

def titleA (n : Nat) : String := ⟨List.replicate n 'a'⟩

/-- Counterexample to C7 as stated: a blog created with a 101-character
title (all other fields valid) is rejected, but the handler's own
`try/catch` intercepts the Mongoose `ValidationError` and reports 500
`Failed to create blog`, not `ValidationError` (400). -/
theorem blog_title_101_rejected_with_500_counterexample :
    (createBlog ⟨"a1", "admin"⟩
        ⟨some (titleA 101), none, some "c", none, none, none, some ["t"], none⟩
        ⟨[], 0⟩).1 =
      .error ⟨"Failed to create blog", 500⟩ ∧
    (500 : Nat) ≠ 400 :=
  ⟨rfl, by decide⟩

/-- Claim C7, amended. For every blog creation or update whose other fields
are valid, a title of exactly 100 characters (after the schema's trim) is
accepted; a title of 101 characters is rejected — but with the generic 500
`Failed to create blog` / `Failed to update blog` error produced by the
handler's `try/catch`, not with a 400 `ValidationError`. -/
theorem blog_title_boundary_amended :
    (∀ (ident : Identity) (b : BlogBody) (s : BlogStore),
      requiredMissing b = [] → ident.id ≠ "" →
      b.content.getD "" ≠ "" →
      (match b.excerpt with | some e => e.length ≤ 200 | none => True) →
      b.tags.getD [] ≠ [] →
      (((jsTrim (b.title.getD "")).length = 100 →
        (createBlog ident b s).1 = .ok (mkBlog s b ident.id)) ∧
       ((jsTrim (b.title.getD "")).length = 101 →
        (createBlog ident b s).1 = .error ⟨"Failed to create blog", 500⟩))) ∧
    (∀ (ident : Identity) (i : Nat) (b : BlogUpdateBody) (s : BlogStore) (bl : Blog)
        (t : String),
      findBlogById s.blogs i = some bl →
      (bl.author = ident.id ∨ ident.role = "admin") →
      b.title = some t →
      (applyBlogUpdate bl b).content ≠ "" →
      (match (applyBlogUpdate bl b).excerpt with | some e => e.length ≤ 200 | none => True) →
      (applyBlogUpdate bl b).author ≠ "" →
      (applyBlogUpdate bl b).tags ≠ [] →
      (((jsTrim t).length = 100 →
        (updateBlog ident i b s).1 = .ok (applyBlogUpdate bl b)) ∧
       ((jsTrim t).length = 101 →
        (updateBlog ident i b s).1 = .error ⟨"Failed to update blog", 500⟩))) := by
  constructor
  · intro ident b s hreq hid hcont hexc htags
    constructor
    · intro hlen
      have hne : jsTrim (b.title.getD "") ≠ "" := by
        intro h0
        rw [h0] at hlen
        exact absurd hlen (by decide)
      have hvb : validBlog (mkBlog s b ident.id) = true :=
        (validBlog_eq_true_iff _).mpr ⟨hne, le_of_eq hlen, hcont, hexc, hid, htags⟩
      simp only [createBlog, hreq]
      rw [if_pos hid, if_pos hvb]
    · intro hlen
      have hvb : validBlog (mkBlog s b ident.id) = false := by
        simp [validBlog, mkBlog, hlen]
      simp only [createBlog, hreq]
      rw [if_pos hid, if_neg (by simp [hvb])]
  · intro ident i b s bl t hfind hauth hbt hcont hexc hauthor htags
    have hcond : ¬(bl.author ≠ ident.id ∧ ident.role ≠ "admin") := by
      rcases hauth with h | h <;> simp [h]
    have htitle : (applyBlogUpdate bl b).title = jsTrim t := by
      simp [applyBlogUpdate, hbt]
    constructor
    · intro hlen
      have hne : (applyBlogUpdate bl b).title ≠ "" := by
        rw [htitle]
        intro h0
        rw [h0] at hlen
        exact absurd hlen (by decide)
      have hvb : validBlog (applyBlogUpdate bl b) = true :=
        (validBlog_eq_true_iff _).mpr
          ⟨hne, htitle ▸ le_of_eq hlen, hcont, hexc, hauthor, htags⟩
      simp only [updateBlog, hfind]
      rw [if_neg hcond, if_pos hvb]
    · intro hlen
      have hvb : validBlog (applyBlogUpdate bl b) = false := by
        have : ¬((applyBlogUpdate bl b).title.length ≤ 100) := by
          rw [htitle, hlen]
          decide
        simp [validBlog, this]
      simp only [updateBlog, hfind]
      rw [if_neg hcond, if_neg (by simp [hvb])]

/-- Witness for the amended C7: a 100-character title is accepted on create
and update; a 101-character title is rejected with 500 on create and
update. -/
theorem blog_title_boundary_amended_witness :
    (createBlog ⟨"a1", "admin"⟩
        ⟨some (titleA 100), none, some "c", none, none, none, some ["t"], none⟩ ⟨[], 0⟩).1 =
      .ok (mkBlog ⟨[], 0⟩
        ⟨some (titleA 100), none, some "c", none, none, none, some ["t"], none⟩ "a1") ∧
    (createBlog ⟨"a1", "admin"⟩
        ⟨some (titleA 101), none, some "c", none, none, none, some ["t"], none⟩ ⟨[], 0⟩).1 =
      .error ⟨"Failed to create blog", 500⟩ ∧
    (updateBlog owner 0 ⟨some (titleA 100), none, none, none, none, none, none, none⟩
        sampleBlogStore).1 =
      .ok (applyBlogUpdate sampleBlog
        ⟨some (titleA 100), none, none, none, none, none, none, none⟩) ∧
    (updateBlog owner 0 ⟨some (titleA 101), none, none, none, none, none, none, none⟩
        sampleBlogStore).1 =
      .error ⟨"Failed to update blog", 500⟩ :=
  ⟨(blog_title_boundary_amended.1 ⟨"a1", "admin"⟩
      ⟨some (titleA 100), none, some "c", none, none, none, some ["t"], none⟩ ⟨[], 0⟩
      (by decide) (by decide) (by decide) trivial (by decide)).1 (by decide),
   (blog_title_boundary_amended.1 ⟨"a1", "admin"⟩
      ⟨some (titleA 101), none, some "c", none, none, none, some ["t"], none⟩ ⟨[], 0⟩
      (by decide) (by decide) (by decide) trivial (by decide)).2 (by decide),
   (blog_title_boundary_amended.2 owner 0
      ⟨some (titleA 100), none, none, none, none, none, none, none⟩ sampleBlogStore
      sampleBlog (titleA 100) (by decide) (by decide) rfl (by decide) trivial
      (by decide) (by decide)).1 (by decide),
   (blog_title_boundary_amended.2 owner 0
      ⟨some (titleA 101), none, none, none, none, none, none, none⟩ sampleBlogStore
      sampleBlog (titleA 101) (by decide) (by decide) rfl (by decide) trivial
      (by decide) (by decide)).2 (by decide)⟩

/-! ## Slot-uniqueness invariant (C1) -/

theorem apptInv_insert (s : ApptStore) (b : ApptBody) (uid : String)
    (h : ApptInv s)
    (hst : slotTaken s.appointments b.counselor b.date b.time = false) :
    ApptInv ⟨s.appointments ++ [mkAppointment s b uid], s.nextId + 1⟩ := by
  constructor
  · rw [List.pairwise_append]
    refine ⟨h.1, List.pairwise_singleton .., ?_⟩
    intro x hx y hy
    have hy2 := List.mem_singleton.mp hy
    subst hy2
    refine ⟨?_, ?_⟩
    · have := h.2 x hx
      show x.id ≠ s.nextId
      omega
    · show slotKey x ≠ (b.counselor, b.date, b.time)
      exact (slotTaken_eq_false_iff _ _ _ _).mp hst x hx
  · intro x hx
    rcases List.mem_append.mp hx with hxl | hxa
    · exact Nat.lt_succ_of_lt (h.2 x hxl)
    · have := List.mem_singleton.mp hxa
      subst this
      show s.nextId < s.nextId + 1
      omega

theorem apptInv_update (s : ApptStore) (i : Nat) (appt updated : Appointment)
    (h : ApptInv s)
    (hfind : findById s.appointments i = some appt)
    (hupd_id : updated.id = appt.id)
    (hany : s.appointments.any
      (fun a => a.id != appt.id &&
        sameSlot a updated.counselor updated.date updated.time) = false) :
    ApptInv ⟨s.appointments.map (fun a => if a.id = i then updated else a), s.nextId⟩ := by
  have hfind2 : s.appointments.find? (fun a => a.id == i) = some appt := hfind
  have hid : appt.id = i := by
    simpa using List.find?_some (p := fun a : Appointment => a.id == i) hfind2
  have happt_mem : appt ∈ s.appointments := List.mem_of_find?_eq_some hfind2
  have hother : ∀ x ∈ s.appointments, x.id ≠ appt.id → slotKey x ≠ slotKey updated := by
    intro x hx hne hkey
    exact List.any_eq_false.mp hany x hx
      (by simp [bne_iff_ne, hne, (sameSlot_eq_true_iff x _ _ _).mpr hkey])
  constructor
  · rw [List.pairwise_map]
    refine List.Pairwise.imp_of_mem ?_ h.1
    intro x y hx hy hxy
    by_cases hxi : x.id = i <;> by_cases hyi : y.id = i
    · exact absurd (hxi.trans hyi.symm) hxy.1
    · simp only [if_pos hxi, if_neg hyi]
      refine ⟨?_, ?_⟩
      · rw [hupd_id, hid]
        exact fun hh => hyi hh.symm
      · have := hother y hy (by rw [hid]; exact hyi)
        exact fun hh => this hh.symm
    · simp only [if_neg hxi, if_pos hyi]
      refine ⟨?_, ?_⟩
      · rw [hupd_id, hid]
        exact hxi
      · exact hother x hx (by rw [hid]; exact hxi)
    · simp only [if_neg hxi, if_neg hyi]
      exact hxy
  · intro x hx
    rcases List.mem_map.mp hx with ⟨z, hz, rfl⟩
    by_cases hzi : z.id = i
    · rw [if_pos hzi, hupd_id]
      exact h.2 appt happt_mem
    · rw [if_neg hzi]
      exact h.2 z hz

theorem apptInv_filter (s : ApptStore) (p : Appointment → Bool) (h : ApptInv s) :
    ApptInv ⟨s.appointments.filter p, s.nextId⟩ :=
  ⟨List.Pairwise.sublist (List.filter_sublist s.appointments) h.1,
   fun x hx => h.2 x (List.mem_of_mem_filter hx)⟩

/-- Every appointment operation preserves the store invariant. -/
theorem apptInv_applyApptOp (s : ApptStore) (op : ApptOp) (h : ApptInv s) :
    ApptInv (applyApptOp s op) := by
  cases op with
  | create ident b =>
    simp only [applyApptOp, createAppointment]
    split
    · exact h
    · split
      · split
        · exact h
        · rename_i hst
          exact apptInv_insert s _ _ h (by simpa using hst)
      · exact h
  | update ident i b =>
    simp only [applyApptOp, updateAppointment]
    split
    · exact h
    · rename_i appt hfind
      split
      · exact h
      · split
        · split
          · exact h
          · rename_i hany
            exact apptInv_update s i appt _ h hfind rfl (by simpa using hany)
        · exact h
  | delete ident i =>
    simp only [applyApptOp, deleteAppointment]
    split
    · exact h
    · split
      · exact h
      · exact apptInv_filter s _ h

theorem apptInv_runApptOps (ops : List ApptOp) (s : ApptStore) (h : ApptInv s) :
    ApptInv (runApptOps s ops) := by
  induction ops generalizing s with
  | nil => exact h
  | cons op rest ih =>
    simp only [runApptOps, List.foldl_cons]
    exact ih _ (apptInv_applyApptOp s op h)

/-- Claim C1. Creating an appointment whose `(counselor, date, time)` triple
equals that of an already-stored appointment fails with the handler's 400
conflict error and leaves the store unchanged; and after any sequence of
appointment operations from the empty store, no two stored appointments
occupy the same `(counselor, date, time)` triple. -/
theorem createAppointment_conflict_and_slot_uniqueness :
    (∀ (ident : Identity) (body : ApptBody) (s : ApptStore),
      SlotUnique s.appointments →
      slotTaken s.appointments body.counselor body.date body.time = true →
      createAppointment ident body s = (.error (bookedConflictErr body), s)) ∧
    (∀ ops : List ApptOp, SlotUnique (runApptOps emptyApptStore ops).appointments) := by
  constructor
  · intro ident body s huniq htaken
    obtain ⟨a0, ha0⟩ : ∃ a0, findExisting s { body with user := some ident.id } = some a0 := by
      have h1 : (findExisting s { body with user := some ident.id }).isSome = true := htaken
      exact Option.isSome_iff_exists.mp h1
    simp only [createAppointment, ha0]
    rfl
  · intro ops
    have hinv : ApptInv (runApptOps emptyApptStore ops) :=
      apptInv_runApptOps ops emptyApptStore ⟨List.Pairwise.nil, by simp [emptyApptStore]⟩
    exact hinv.1.imp fun hab => hab.2

def bodyDup : ApptBody := ⟨none, "c1", "15min", "2025-01-01", "10:00", none, none⟩

/-- Witness for C1: booking the sample store's occupied slot fails with the
400 conflict and leaves the store unchanged; a concrete operation sequence
from the empty store satisfies slot uniqueness. -/
theorem createAppointment_conflict_and_slot_uniqueness_witness :
    createAppointment intruder bodyDup sampleApptStore =
      (.error (bookedConflictErr bodyDup), sampleApptStore) ∧
    SlotUnique (runApptOps emptyApptStore [.create owner bodyNew]).appointments :=
  ⟨createAppointment_conflict_and_slot_uniqueness.1 intruder bodyDup sampleApptStore
      (by simp [SlotUnique, sampleApptStore]) (by decide),
   createAppointment_conflict_and_slot_uniqueness.2 [.create owner bodyNew]⟩

theorem slotTaken_eq_true_iff (l : List Appointment) (c d t : String) :
    slotTaken l c d t = true ↔ ∃ a ∈ l, slotKey a = (c, d, t) := by
  rw [slotTaken, Option.isSome_iff_exists]
  constructor
  · rintro ⟨x, hx⟩
    exact ⟨x, List.mem_of_find?_eq_some hx,
      (sameSlot_eq_true_iff x c d t).mp
        (List.find?_some (p := fun y => sameSlot y c d t) hx)⟩
  · rintro ⟨a, ha, hk⟩
    have h1 : (l.find? (fun y => sameSlot y c d t)).isSome :=
      List.find?_isSome.mpr ⟨a, ha, (sameSlot_eq_true_iff a c d t).mpr hk⟩
    exact Option.isSome_iff_exists.mp h1

theorem validAppointment_newAppt (ident : Identity) (b : ApptBody) (s : ApptStore) :
    validAppointment (mkAppointment s { b with user := some ident.id } ident.id) =
      bodyValid ident b := rfl

/-- Claim C2. For every valid slot request and every store in which the slot
is free, two concurrent create-appointment requests with identical
`(counselor, date, time)` triples — their two atomic steps interleaved in
any of the six possible orders — finish with exactly one created
appointment and one slot-conflict failure (the handler's pre-check 400 or
the unique index's duplicate-key error), never two successes. -/
theorem concurrent_create_one_success_one_conflict
    (i1 i2 : Identity) (b1 b2 : ApptBody) (s : ApptStore)
    (hv1 : bodyValid i1 b1 = true) (hv2 : bodyValid i2 b2 = true)
    (hc : b2.counselor = b1.counselor) (hd : b2.date = b1.date) (ht : b2.time = b1.time)
    (hfree : slotTaken s.appointments b1.counselor b1.date b1.time = false) :
    ∀ sch ∈ interleavings2,
      (isSuccess (runSchedule i1 b1 i2 b2 sch ⟨s, .start, .start⟩).p1 = true ∧
       isConflictFailure b1 (runSchedule i1 b1 i2 b2 sch ⟨s, .start, .start⟩).p2 = true) ∨
      (isConflictFailure b1 (runSchedule i1 b1 i2 b2 sch ⟨s, .start, .start⟩).p1 = true ∧
       isSuccess (runSchedule i1 b1 i2 b2 sch ⟨s, .start, .start⟩).p2 = true) := by
  have hfree2 : slotTaken s.appointments b2.counselor b2.date b2.time = false := by
    rw [hc, hd, ht]; exact hfree
  have htaken12 : slotTaken
      (s.appointments ++ [mkAppointment s { b1 with user := some i1.id } i1.id])
      b2.counselor b2.date b2.time = true := by
    rw [hc, hd, ht]
    exact (slotTaken_eq_true_iff _ _ _ _).mpr
      ⟨mkAppointment s { b1 with user := some i1.id } i1.id,
       List.mem_append_right _ (List.mem_singleton_self _), rfl⟩
  have htaken21 : slotTaken
      (s.appointments ++ [mkAppointment s { b2 with user := some i2.id} i2.id])
      b1.counselor b1.date b1.time = true := by
    refine (slotTaken_eq_true_iff _ _ _ _).mpr
      ⟨mkAppointment s { b2 with user := some i2.id } i2.id,
       List.mem_append_right _ (List.mem_singleton_self _), ?_⟩
    rw [← hc, ← hd, ← ht]
    rfl
  have hbooked : bookedConflictErr b2 = bookedConflictErr b1 := by
    simp [bookedConflictErr, hd, ht]
  intro sch hsch
  fin_cases hsch <;>
    simp [runSchedule, stepCreate, validAppointment_newAppt, hv1, hv2, hfree,
      hfree2, htaken12, htaken21, hbooked, isSuccess, isConflictFailure]

/-- Witness for C2 at a concrete free store, two users racing for the same
slot under the schedule where both pre-checks run before both inserts. -/
theorem concurrent_create_one_success_one_conflict_witness :
    (isSuccess (runSchedule owner bodyNew intruder bodyNew [true, false, true, false]
        ⟨emptyApptStore, .start, .start⟩).p1 = true ∧
     isConflictFailure bodyNew (runSchedule owner bodyNew intruder bodyNew
        [true, false, true, false] ⟨emptyApptStore, .start, .start⟩).p2 = true) ∨
    (isConflictFailure bodyNew (runSchedule owner bodyNew intruder bodyNew
        [true, false, true, false] ⟨emptyApptStore, .start, .start⟩).p1 = true ∧
     isSuccess (runSchedule owner bodyNew intruder bodyNew [true, false, true, false]
        ⟨emptyApptStore, .start, .start⟩).p2 = true) :=
  concurrent_create_one_success_one_conflict owner intruder bodyNew bodyNew
    emptyApptStore (by decide) (by decide) rfl rfl rfl (by decide)
    [true, false, true, false] (by decide)
